import Mathlib

/-!
Shallow embedding of the core subsystems of the Celeste desktop client
(repository `hwittenborn/cliff`): the authentication orchestrator and
credential commit/rollback in `src/login.rs`, the rclone RPC helpers in
`src/rclone.rs`, and the crash-isolation supervisor in `src/main.rs` /
`src/parent.rs`.  Pure string manipulation from the Rust standard library
(`str::contains`, `str::lines`, `str::split_whitespace`, `str::ends_with`,
`str::strip_prefix` / `str::strip_suffix`) is re-implemented here by
structural recursion over character lists so that every definition is
executable and concrete instances evaluate by `decide` / `rfl`.
-/

namespace Celeste

/-! ## String primitives (Rust `str` methods used by the code) -/

/-- Whether `cs` begins with the pattern `pat` (character-list version of a
string starting with a pattern). -/
def charsBeginWith : List Char → List Char → Bool
  | [], _ => true
  | _ :: _, [] => false
  | a :: ps, c :: cs => a == c && charsBeginWith ps cs

/-- Whether the pattern `pat` occurs as a contiguous substring of `cs`
(character-list version of Rust `str::contains` with a `&str` pattern). -/
def charsContain (pat : List Char) : List Char → Bool
  | [] => charsBeginWith pat []
  | c :: cs => charsBeginWith pat (c :: cs) || charsContain pat cs

/-- Rust `s.contains(pat)` for string slices: substring containment. -/
def strContains (s pat : String) : Bool :=
  charsContain pat.data s.data

/-- Split a character list at every character satisfying `q`, keeping empty
segments.  The result is always nonempty. -/
def splitOnPred (q : Char → Bool) : List Char → List (List Char)
  | [] => [[]]
  | c :: cs =>
    match splitOnPred q cs with
    | [] => []
    | r :: rs => if q c then [] :: r :: rs else (c :: r) :: rs

/-- Drop one trailing carriage return, as Rust `str::lines` does on each
line split at `\n`. -/
def stripTrailingCR (l : List Char) : List Char :=
  if l.getLast? == some '\r' then l.dropLast else l

/-- Rust `str::lines`: split at `\n` (also swallowing a `\r` directly before
it), where a final trailing line terminator does not produce an empty final
line and the empty string has no lines. -/
def rustLines (s : String) : List String :=
  let parts := splitOnPred (· == '\n') s.data
  let parts := if parts.getLast? == some [] then parts.dropLast else parts
  parts.map (fun l => String.mk (stripTrailingCR l))

/-- Rust `str::split_whitespace`: the maximal whitespace-free chunks of the
string, in order. -/
def splitWhitespace (s : String) : List String :=
  ((splitOnPred Char.isWhitespace s.data).filter (· != [])).map String.mk

/-- Rust `s.ends_with(':')`, used by `sync::get_remote_name`. -/
def endsWithColon (s : String) : Bool :=
  s.data.getLast? == some ':'

/-- `util::strip_slashes`: remove a single leading and a single trailing
`/` (Rust `strip_prefix('/')` then `strip_suffix('/')`). -/
def strip_slashes (s : String) : String :=
  let t := if s.data.head? == some '/' then String.mk s.data.tail else s
  if t.data.getLast? == some '/' then String.mk t.data.dropLast else t

/-! ## Login data model (`src/login.rs`) -/

/-- The `Provider` enum of `src/login.rs`. -/
inductive Provider where
  | Dropbox
  | GoogleDrive
  | Nextcloud
  | Owncloud
  | PCloud
  | ProtonDrive
  | WebDav
deriving DecidableEq, Repr

/-- `Provider::rclone_type`: the backend-type name rclone uses for each
provider. -/
def Provider.rclone_type : Provider → String
  | .Dropbox => "dropbox"
  | .GoogleDrive => "drive"
  | .Nextcloud | .Owncloud | .WebDav => "webdav"
  | .PCloud => "pcloud"
  | .ProtonDrive => "protondrive"

/-- `Provider::is_webdav`: whether a provider uses the rclone WebDav
backend. -/
def Provider.is_webdav : Provider → Bool
  | .Nextcloud | .Owncloud | .WebDav => true
  | _ => false

/-- The `LoginCommandErr` enum of `src/login.rs`: the error taxonomy of one
authentication attempt. -/
inductive LoginCommandErr where
  | Cancelled
  | AuthServer (stderr : String)
  | Token (stderr : String)
  | NameResolution
  | InvalidPassword
  | MissingTotp
  | ValidityUnknown (error : String)
deriving DecidableEq, Repr

/-! ## Authentication orchestrator: `get_token` (`src/login.rs:69-186`)

The two busy-poll loops of `get_token` are embedded as step functions over
an observation of the world at one poll iteration (whether a cancel signal
has been received, whether and how the helper process has exited, and the
current contents of the two captured output buffers).  The loops themselves
are the first terminating step over a list of such observations. -/

/-- The fixed local callback marker scanned for in the AwaitingUrl phase. -/
def authUrlMarker : String := "http://127.0.0.1:53682/auth"

/-- AwaitingUrl scan (`src/login.rs:134-142`): concatenate the stdout and
stderr buffers with a newline between them, find the first line containing
`authUrlMarker`, and take the last whitespace-delimited chunk of that line
(`line.split_whitespace().last()`). -/
def find_auth_url (stdoutBuf stderrBuf : String) : Option String :=
  let output := stdoutBuf ++ "\n" ++ stderrBuf
  match (rustLines output).find? (fun l => strContains l authUrlMarker) with
  | some l => (splitWhitespace l).getLast?
  | none => none

/-- One iteration of the AwaitingUrl loop (`src/login.rs:125-147`): the
process-exit check runs first and fails the session with the captured
stderr (wrapped in `LoginCommandErr::AuthServer` by the `map_err` at line
148); otherwise a discovered URL resolves the loop and no discovery
continues polling (`none`). -/
def await_url_step (exited : Bool) (stdoutBuf stderrBuf : String) :
    Option (Except LoginCommandErr String) :=
  if exited then some (.error (.AuthServer stderrBuf))
  else
    match find_auth_url stdoutBuf stderrBuf with
    | some url => some (.ok url)
    | none => none

/-- Token extraction at successful helper exit
(`src/login.rs:170-177`): `stdout.lines().rev().nth(1)`, i.e. the
second-to-last line of the captured stdout buffer; `none` models the
`unwrap` panic when fewer than two lines exist. -/
def extract_token (stdoutBuf : String) : Option String :=
  (rustLines stdoutBuf).reverse.get? 1

/-- What one iteration of the AwaitingToken loop observes: whether
`rx.try_recv()` succeeds, the result of `process.try_wait()` (`some true`
= exited successfully, `some false` = exited with failure, `none` = still
running), and the buffer contents at that instant. -/
structure PollObs where
  cancelRequested : Bool
  exitStatus : Option Bool
  stdoutBuf : String
  stderrBuf : String

/-- Outcome of the AwaitingToken loop.  In `succeeded`, `none` for the
token models the `unwrap` panic on a stdout buffer with fewer than two
lines. -/
inductive TokenOutcome where
  | cancelled
  | failed (stderr : String)
  | succeeded (token : Option String)
deriving DecidableEq, Repr

/-- One iteration of the AwaitingToken loop (`src/login.rs:155-181`).
Returns `none` to keep polling, otherwise the pair of (whether SIGINT was
sent to the helper process, the outcome).  The cancellation check runs
before the process-exit check. -/
def tokenPollStep (o : PollObs) : Option (Bool × TokenOutcome) :=
  if o.cancelRequested then some (true, .cancelled)
  else
    match o.exitStatus with
    | some false => some (false, .failed o.stderrBuf)
    | some true => some (false, .succeeded (extract_token o.stdoutBuf))
    | none => none

/-- The AwaitingToken loop over a trace of poll observations: the first
terminating iteration decides the outcome. -/
def token_poll_loop : List PollObs → Option (Bool × TokenOutcome)
  | [] => none
  | o :: os =>
    match tokenPollStep o with
    | some r => some r
    | none => token_poll_loop os

/-! ## Rclone RPC request construction (`src/rclone.rs`, module `sync`) -/

/-- `sync::get_remote_name` (`src/rclone.rs:367-372`): append `:` to a
remote name; a name already ending in `:` panics instead, modelled as
`none`. -/
def get_remote_name (remote : String) : Option String :=
  if endsWithColon remote then none else some (remote ++ ":")

/-- The request fields of an rclone RPC operation addressing one remote
path (`fs` plus `remote`, with the method name kept for reference). -/
structure RpcCall where
  method : String
  fs : String
  remote : String
deriving DecidableEq, Repr

/-- `sync::common` (`src/rclone.rs:375-397`): the request built for
`operations/mkdir` / `operations/delete` / `operations/purge`.  `none`
models the `get_remote_name` panic happening before any RPC is issued. -/
def common_call (command remote_name path : String) : Option RpcCall :=
  (get_remote_name remote_name).map fun fs =>
    { method := command, fs := fs, remote := strip_slashes path }

/-- `sync::stat` request (`src/rclone.rs:432-456`). -/
def stat_call (remote_name path : String) : Option RpcCall :=
  (get_remote_name remote_name).map fun fs =>
    { method := "operations/stat", fs := fs, remote := strip_slashes path }

/-- `sync::list` request fields other than the `opt` object
(`src/rclone.rs:459-492`). -/
def list_call (remote_name path : String) : Option RpcCall :=
  (get_remote_name remote_name).map fun fs =>
    { method := "operations/list", fs := fs, remote := strip_slashes path }

/-- `sync::mkdir` (`src/rclone.rs:495-497`). -/
def mkdir_call (remote_name path : String) : Option RpcCall :=
  common_call "operations/mkdir" remote_name path

/-- `sync::delete` (`src/rclone.rs:500-502`). -/
def delete_call (remote_name path : String) : Option RpcCall :=
  common_call "operations/delete" remote_name path

/-- `sync::purge` (`src/rclone.rs:504-506`). -/
def purge_call (remote_name path : String) : Option RpcCall :=
  common_call "operations/purge" remote_name path

/-- The request fields of `operations/copyfile` (`sync::copy`,
`src/rclone.rs:509-539`). -/
structure CopyCall where
  srcFs : String
  srcRemote : String
  dstFs : String
  dstRemote : String
deriving DecidableEq, Repr

/-- `sync::copy_to_remote` (`src/rclone.rs:542-554`): local root as source
filesystem, the named remote as destination filesystem. -/
def copy_to_remote_call (local_file remote_name remote_destination : String) :
    Option CopyCall :=
  (get_remote_name remote_name).map fun fs =>
    { srcFs := "/", srcRemote := strip_slashes local_file,
      dstFs := fs, dstRemote := strip_slashes remote_destination }

/-- `sync::copy_to_local` (`src/rclone.rs:557-569`): the named remote as
source filesystem, local root as destination filesystem. -/
def copy_to_local_call (local_destination remote_name remote_file : String) :
    Option CopyCall :=
  (get_remote_name remote_name).map fun fs =>
    { srcFs := fs, srcRemote := strip_slashes remote_file,
      dstFs := "/", dstRemote := strip_slashes local_destination }

/-! ## Rclone configuration store state

The configuration store of the engine is modelled by the list of persisted
remote names (what `config/listremotes` reports, `src/rclone.rs:69-86`).
Remote names in an rclone config are unique; `config/create` persists the
named record and `config/delete` removes it. -/

/-- The effect of `sync::create_config` (`src/rclone.rs:400-413`) on the
set of persisted remote names: the name becomes persisted. -/
def create_config (remotes : List String) (name : String) : List String :=
  if name ∈ remotes then remotes else remotes ++ [name]

/-- The effect of `sync::delete_config` (`src/rclone.rs:416-429`) on the
set of persisted remote names: the name is no longer persisted. -/
def delete_config (remotes : List String) (name : String) : List String :=
  remotes.filter (· ≠ name)

/-- `get_remotes` (`src/rclone.rs:69-86`): the remote names reported by
`config/listremotes`. -/
def list_remotes (remotes : List String) : List String :=
  remotes

/-! ## Credential commit, validation probe, rollback and error
classification (`src/login.rs:775-856`) -/

/-- The probe-failure classification at `src/login.rs:836-851`: exact
(case-sensitive) substring checks, in the order the code performs them. -/
def classify_probe_error (error : String) : LoginCommandErr :=
  if strContains error "Temporary failure in name resolution"
      || strContains error "no such host" then
    .NameResolution
  else if strContains error "The password is not correct"
      || strContains error "Incorrect login credentials"
      || strContains error "password was incorrect" then
    .InvalidPassword
  else if strContains error "this account requires a 2FA code" then
    .MissingTotp
  else
    .ValidityUnknown error

/-- The commit-probe-rollback sequence of the `Authenticate` oneshot
command (`src/login.rs:783-855`), after any token was obtained: create the
config record, probe it with `operations/stat` on the root path, and on
probe failure delete the record again before returning the classified
error.  The outcome of the probe is an input (`Except` carrying the engine
error string on failure); the returned state is the store of persisted
remote names after the sequence. -/
def commit_and_validate (remotes : List String) (config_name : String)
    (probe : Except String Unit) :
    List String × Except LoginCommandErr String :=
  let created := create_config remotes config_name
  match probe with
  | .ok _ => (created, .ok config_name)
  | .error e =>
    (delete_config created config_name, .error (classify_probe_error e))

/-! ## Pre-flight input validation in the login window (`src/login.rs`)

The `connect_changed` handlers of the name and URL entry rows compute an
optional `(title, body)` error message; a `Some` message marks the field
with the error CSS class, and `LoginMsg::CheckInputs` then makes the login
button insensitive whenever any visible field is empty or marked.  The
login button is the only trigger of `LoginMsg::PrepAuthenticate`, and thus
of the `Authenticate` commit flow. -/

/-- A character allowed by the first class of `NAME_REGEX`
(`src/login.rs:392`): `[0-9a-zA-Z_.]`. -/
def nameFirstClass (c : Char) : Bool :=
  c.isAlphanum || c == '_' || c == '.'

/-- A character allowed in the middle of `NAME_REGEX`:
`[0-9a-zA-Z_. -]`. -/
def nameMidClass (c : Char) : Bool :=
  nameFirstClass c || c == ' ' || c == '-'

/-- A character allowed at the end of `NAME_REGEX`: `[0-9a-zA-Z_.-]`. -/
def nameLastClass (c : Char) : Bool :=
  nameFirstClass c || c == '-'

/-- Whether `NAME_REGEX` (`^[0-9a-zA-Z_.][0-9a-zA-Z_. -]*[0-9a-zA-Z_.-]$`)
matches the whole name: at least two characters, first in the first class,
last in the last class, everything between in the middle class. -/
def name_regex_match (s : String) : Bool :=
  match s.data with
  | [] => false
  | [_] => false
  | c :: c2 :: rest =>
    nameFirstClass c && nameLastClass (List.getLastD (c2 :: rest) c2)
      && (c2 :: rest).dropLast.all nameMidClass

/-- The name-field validation of `name_input.connect_changed`
(`src/login.rs:381-425`), checked against the live list of existing remote
names obtained from `get_remotes`: an empty name carries no error, a name
equal to the name of an existing remote errors with "Name already exists", and
a name failing `NAME_REGEX` errors with "Invalid server name". -/
def name_check (name : String) (existing_remotes : List String) :
    Option (String × String) :=
  if name = "" then none
  else if name ∈ existing_remotes then some ("Name already exists", "")
  else if !name_regex_match name then
    some ("Invalid server name",
      "Server names must:\n- Only contain numbers, letters, underscores, hyphens, periods, and spaces\n- Not start with a hyphen/space\n- Not end with a space")
  else none

/-- Drop characters until the remainder begins with `pat` (empty if `pat`
never occurs). -/
def dropUntilMarker (pat : List Char) : List Char → List Char
  | [] => []
  | c :: cs => if charsBeginWith pat (c :: cs) then c :: cs else dropUntilMarker pat cs

/-- The offending URL segment reported by the URL validation: the match of
`REMOTE_PHP_REGEX` (`/remote\.php/.*`, `src/login.rs:447`), i.e. the
portion of the URL path from the first occurrence of `/remote.php/` to its
end. -/
def remote_php_segment (path : String) : String :=
  String.mk (dropUntilMarker "/remote.php/".data path.data)

/-- The URL-field validation of `url_input.connect_changed`
(`src/login.rs:439-476`).  `text` is the raw entry contents and `parsed`
the outcome of `Url::parse` on it (`Except.ok` carrying the path of the
parsed URL, `Except.error` carrying the display text of the parse error — the `url`
crate being an external collaborator, its result is an input here).  The
`/remote.php/` rejection applies only when the provider matches
`Provider::Nextcloud | Provider::Owncloud`. -/
def url_check (provider : Provider) (text : String)
    (parsed : Except String String) : Option (String × String) :=
  if text = "" then none
  else
    match parsed with
    | .ok path =>
      if (provider = .Nextcloud ∨ provider = .Owncloud)
          ∧ strContains path "/remote.php/" then
        some ("Invalid server URL",
          "Don\x27t specify \x27" ++ remote_php_segment path
            ++ "\x27 as part of the URL")
      else none
    | .error e => some ("Invalid server URL", "Error: " ++ e ++ ".")

/-- The state of one entry row as `LoginMsg::CheckInputs`
(`src/login.rs:681-711`) observes it: visibility, text, and whether the
field currently carries the error CSS class (set exactly when its last
validation produced a `Some` message). -/
structure InputState where
  visible : Bool
  text : String
  hasError : Bool

/-- `LoginMsg::CheckInputs`: the login button is sensitive iff every
visible entry row among name/url/username/password is nonempty and
error-free, and — when the TOTP row is visible and its checkmark active —
the TOTP row likewise. -/
def check_inputs (entry_rows : List InputState) (totp : InputState)
    (totp_active : Bool) : Bool :=
  entry_rows.all (fun i => !i.visible || (!(i.text = "") && !i.hasError))
    && (!(totp.visible && totp_active)
      || (!(totp.text = "") && !totp.hasError))

/-! ## Crash handoff payload and process supervisor
(`src/main.rs:111-186`, `src/parent.rs:61-89`) -/

/-- A JSON value, as exchanged through the crash handoff file. -/
inductive Json where
  | str (s : String)
  | num (n : Int)
  | bool (b : Bool)
  | null
  | arr (items : List Json)
  | obj (fields : List (String × Json))

/-- Look up a field of a JSON object by name (first occurrence), as serde
does when deserializing a struct from a JSON object. -/
def Json.getField (fields : List (String × Json)) (key : String) : Option Json :=
  match fields.find? (fun f => f.1 = key) with
  | some f => some f.2
  | none => none

/-- Extract a JSON string value. -/
def Json.asStr : Json → Option String
  | .str s => some s
  | _ => none

/-- Modelled from the spec: the structured failure event inside the crash
payload is `sentry::protocol::Event`, a type of an external crate whose
definition is not part of this repository; the spec describes it only as
"a structured failure event", so it is modelled by its essential fields
(severity level and failure message), serialized as a JSON object. -/
structure SentryEvent where
  level : String
  message : String
deriving DecidableEq, Repr

/-- The `SentryPanicInfo` struct of `src/main.rs:113-119`: the backtrace
(kept as its serialized text) plus the structured failure event. -/
structure SentryPanicInfo where
  backtrace : String
  event : SentryEvent
deriving DecidableEq, Repr

/-- Serde-derived serialization of `SentryEvent` as a JSON object. -/
def encode_event (e : SentryEvent) : Json :=
  .obj [("level", .str e.level), ("message", .str e.message)]

/-- Serde-derived deserialization of `SentryEvent` from a JSON value. -/
def decode_event (j : Json) : Option SentryEvent :=
  match j with
  | .obj fields => do
    let lv ← (Json.getField fields "level").bind Json.asStr
    let msg ← (Json.getField fields "message").bind Json.asStr
    pure { level := lv, message := msg }
  | _ => none

/-- The panic hook of the child (`src/main.rs:174-180`): serialize the
`SentryPanicInfo` (fields in declaration order: `backtrace`, `event`) to
the JSON text written to the handoff file. -/
def encode_panic_info (p : SentryPanicInfo) : Json :=
  .obj [("backtrace", .str p.backtrace), ("event", encode_event p.event)]

/-- Deserialization by the supervisor (`serde_json::from_str` in
`parent::handle_panic`, `src/parent.rs:63`). -/
def decode_panic_info (j : Json) : Option SentryPanicInfo :=
  match j with
  | .obj fields => do
    let bt ← (Json.getField fields "backtrace").bind Json.asStr
    let ev ← (Json.getField fields "event").bind decode_event
    pure { backtrace := bt, event := ev }
  | _ => none

/-- What the supervisor process ends up doing after the child exits. -/
inductive ParentOutcome where
  | childOk
  | presented (p : SentryPanicInfo)
  | panicked
deriving DecidableEq, Repr

/-- `parent::start` (`src/parent.rs:70-89`) followed by
`parent::handle_panic` (`src/parent.rs:61-68`): wait for the child, and
only when its exit status is unsuccessful read the handoff file and
deserialize the payload, launching the presentation component with it.
`handoff` is the contents of the handoff file (`none` when the file is absent
or its text is not valid JSON, making `fs::read_to_string` or the serde
parse fail); either `unwrap` failure in `handle_panic` is a panic of the
supervisor itself, never a silent exit.  The returned `Bool` records
whether the handoff file was read. -/
def parent_start (childSuccess : Bool) (handoff : Option Json) :
    Bool × ParentOutcome :=
  if childSuccess then (false, .childOk)
  else
    match handoff with
    | none => (true, .panicked)
    | some j =>
      match decode_panic_info j with
      | none => (true, .panicked)
      | some p => (true, .presented p)

/-! ## Theorems -/

/-- C1: for every commit attempt, the commit-probe-rollback sequence leaves
either a validated record or no record at all: on a probe failure the
just-created record is deleted via `config/delete` before the classified
error is returned (so it is absent from a subsequent `config/listremotes`),
on probe success the record stays persisted, and a probe failure whose
error contains "no such host" classifies as `NameResolution`. -/
theorem commit_rollback_atomicity (remotes : List String) (config_name : String)
    (probe : Except String Unit) :
    (∀ e, probe = .error e →
      config_name ∉ list_remotes (commit_and_validate remotes config_name probe).1 ∧
      (commit_and_validate remotes config_name probe).2
        = .error (classify_probe_error e)) ∧
    (probe = .ok () →
      config_name ∈ list_remotes (commit_and_validate remotes config_name probe).1) ∧
    (∀ e, probe = .error e → strContains e "no such host" = true →
      (commit_and_validate remotes config_name probe).2
        = .error LoginCommandErr.NameResolution) := by
  refine ⟨?_, ?_, ?_⟩
  · intro e he
    subst he
    constructor
    · simp [commit_and_validate, delete_config, list_remotes, List.mem_filter]
    · simp [commit_and_validate]
  · intro hok
    subst hok
    simp only [commit_and_validate, list_remotes, create_config]
    split
    · assumption
    · simp
  · intro e he hc
    subst he
    simp [commit_and_validate, classify_probe_error, hc]

/-- Witness for C1 at a concrete store, name and probe failure. -/
theorem commit_rollback_atomicity_witness :
    (commit_and_validate [] "r" (Except.error "x: no such host")).2
      = Except.error LoginCommandErr.NameResolution :=
  (commit_rollback_atomicity [] "r" (Except.error "x: no such host")).2.2
    "x: no such host" rfl (by decide)

/-- C2: at any AwaitingToken poll iteration where the cancellation signal
has been received, the loop sends SIGINT to the helper process and resolves
`cancelled` — never `succeeded` or `failed`, even if the process has
already exited successfully; every terminating iteration goes through
exactly one of the cancellation branch and the process-exit branch; and a
loop whose every observation carries the cancellation signal can only
resolve `cancelled` with SIGINT sent. -/
theorem awaiting_token_cancel_priority (o : PollObs) (h : o.cancelRequested = true) :
    tokenPollStep o = some (true, TokenOutcome.cancelled) ∧
    (∀ o' : PollObs, ∀ r, tokenPollStep o' = some r →
      (o'.cancelRequested = true ∧ r = (true, TokenOutcome.cancelled)) ∨
      (o'.cancelRequested = false ∧ o'.exitStatus.isSome = true ∧
        r.1 = false ∧ r.2 ≠ TokenOutcome.cancelled)) ∧
    (∀ trace r, (∀ o' ∈ trace, o'.cancelRequested = true) →
      token_poll_loop trace = some r → r = (true, TokenOutcome.cancelled)) := by
  refine ⟨by simp [tokenPollStep, h], ?_, ?_⟩
  · intro o' r hr
    by_cases hc : o'.cancelRequested
    · left
      simp [tokenPollStep, hc] at hr
      exact ⟨hc, hr.symm⟩
    · right
      simp only [Bool.not_eq_true] at hc
      cases hst : o'.exitStatus with
      | none => simp [tokenPollStep, hc, hst] at hr
      | some status =>
        cases status <;>
          · simp [tokenPollStep, hc, hst] at hr
            subst hr
            exact ⟨hc, by simp [hst], rfl, by simp⟩
  · intro trace
    induction trace with
    | nil => intro r _ hr; simp [token_poll_loop] at hr
    | cons o' os ih =>
      intro r hall hr
      have hc : o'.cancelRequested = true := hall o' (by simp)
      simp [token_poll_loop, tokenPollStep, hc] at hr
      exact hr.symm

/-- Witness for C2: cancellation observed while the process has already
exited successfully still resolves `cancelled`. -/
theorem awaiting_token_cancel_priority_witness :
    tokenPollStep ⟨true, some true, "a\ntok\n", ""⟩
      = some (true, TokenOutcome.cancelled) :=
  (awaiting_token_cancel_priority ⟨true, some true, "a\ntok\n", ""⟩ rfl).1

/-- The element at index 1 of the reverse of a list is its second-to-last
element. -/
lemma reverse_get_one_eq_second_to_last (ls : List String) :
    ls.reverse[1]? = ls.dropLast.getLast? := by
  induction ls using List.reverseRecOn with
  | nil => rfl
  | append_singleton l a _ =>
    simp [List.reverse_append, ← List.head?_eq_getElem?, List.head?_reverse]

/-- C3: at every successful helper-process exit, the extracted token is
the second-to-last line of the captured stdout buffer; in particular
stdout `"line1\ntoken-value\n\n"` yields `"token-value"`. -/
theorem token_is_second_to_last_line :
    (∀ o : PollObs, o.cancelRequested = false → o.exitStatus = some true →
      tokenPollStep o
        = some (false, TokenOutcome.succeeded
            ((rustLines o.stdoutBuf).dropLast.getLast?))) ∧
    extract_token "line1\ntoken-value\n\n" = some "token-value" := by
  constructor
  · intro o hc hs
    simp [tokenPollStep, hc, hs, extract_token,
      reverse_get_one_eq_second_to_last]
  · decide

/-- Witness for C3 at a concrete successful exit observation. -/
theorem token_is_second_to_last_line_witness :
    tokenPollStep ⟨false, some true, "line1\ntoken-value\n\n", ""⟩
      = some (false, TokenOutcome.succeeded (some "token-value")) := by
  have h := token_is_second_to_last_line.1
    ⟨false, some true, "line1\ntoken-value\n\n", ""⟩ rfl rfl
  rw [h]
  rfl

/-- C4, counterexample: the error string "error in name resolution"
contains "name resolution" yet is not classified `NameResolution` — the
code matches the longer substring "Temporary failure in name resolution",
so the claim as stated is false. -/
theorem classification_short_substring_counterexample :
    strContains "error in name resolution" "name resolution" = true ∧
    classify_probe_error "error in name resolution"
      ≠ LoginCommandErr.NameResolution ∧
    classify_probe_error "error in name resolution"
      = LoginCommandErr.ValidityUnknown "error in name resolution" := by
  decide

/-- C4 as amended: the classification uses the exact case-sensitive code
substrings, checked in order — "Temporary failure in name resolution" or
"no such host" gives `NameResolution`; otherwise "The password is not
correct" / "Incorrect login credentials" / "password was incorrect" gives
`InvalidPassword`; otherwise "this account requires a 2FA code" gives
`MissingTotp`; otherwise `ValidityUnknown` carrying the full error text. -/
theorem classification_exact_substrings (e : String) :
    ((strContains e "Temporary failure in name resolution" = true
        ∨ strContains e "no such host" = true) →
      classify_probe_error e = LoginCommandErr.NameResolution) ∧
    (strContains e "Temporary failure in name resolution" = false →
      strContains e "no such host" = false →
      (strContains e "The password is not correct" = true
        ∨ strContains e "Incorrect login credentials" = true
        ∨ strContains e "password was incorrect" = true) →
      classify_probe_error e = LoginCommandErr.InvalidPassword) ∧
    (strContains e "Temporary failure in name resolution" = false →
      strContains e "no such host" = false →
      strContains e "The password is not correct" = false →
      strContains e "Incorrect login credentials" = false →
      strContains e "password was incorrect" = false →
      strContains e "this account requires a 2FA code" = true →
      classify_probe_error e = LoginCommandErr.MissingTotp) ∧
    (strContains e "Temporary failure in name resolution" = false →
      strContains e "no such host" = false →
      strContains e "The password is not correct" = false →
      strContains e "Incorrect login credentials" = false →
      strContains e "password was incorrect" = false →
      strContains e "this account requires a 2FA code" = false →
      classify_probe_error e = LoginCommandErr.ValidityUnknown e) := by
  refine ⟨?_, ?_, ?_, ?_⟩
  · rintro (h | h) <;> simp [classify_probe_error, h]
  · rintro h1 h2 (h | h | h) <;> simp [classify_probe_error, h1, h2, h]
  · intro h1 h2 h3 h4 h5 h6
    simp [classify_probe_error, h1, h2, h3, h4, h5, h6]
  · intro h1 h2 h3 h4 h5 h6
    simp [classify_probe_error, h1, h2, h3, h4, h5, h6]

/-- Witness for the amended C4 at a concrete probe error. -/
theorem classification_exact_substrings_witness :
    classify_probe_error "dial tcp: no such host"
      = LoginCommandErr.NameResolution :=
  (classification_exact_substrings "dial tcp: no such host").1
    (Or.inr (by decide))

/-- C5, counterexample: `Provider::WebDav` is in the WebDAV family, yet a
URL whose path contains `/remote.php/` passes its URL validation with no
error — the rejection only matches `Provider::Nextcloud | Provider::Owncloud`,
so the claim as stated is false. -/
theorem webdav_remote_php_not_rejected :
    Provider.is_webdav Provider.WebDav = true ∧
    url_check Provider.WebDav "https://host/remote.php/dav"
      (Except.ok "/remote.php/dav") = none := by
  decide

/-- C5 as amended: for providers Nextcloud and Owncloud (but not
`Provider::WebDav`), every entered non-empty URL that parses and whose path
contains `/remote.php/` is rejected by the pre-commit field validation,
with an error naming the offending `/remote.php/...` segment. -/
theorem remote_php_rejected_nextcloud_owncloud (provider : Provider)
    (text path : String)
    (hp : provider = Provider.Nextcloud ∨ provider = Provider.Owncloud)
    (ht : text ≠ "") (hc : strContains path "/remote.php/" = true) :
    url_check provider text (Except.ok path) =
      some ("Invalid server URL",
        "Don\x27t specify \x27" ++ remote_php_segment path
          ++ "\x27 as part of the URL") := by
  rcases hp with hp | hp <;> subst hp <;> simp [url_check, ht, hc]

/-- Witness for the amended C5 at the scenario input given in the spec. -/
theorem remote_php_rejected_nextcloud_owncloud_witness :
    url_check Provider.Nextcloud "https://host/remote.php/dav"
      (Except.ok "/remote.php/dav") =
      some ("Invalid server URL",
        "Don\x27t specify \x27/remote.php/dav\x27 as part of the URL") := by
  rw [remote_php_rejected_nextcloud_owncloud Provider.Nextcloud
    "https://host/remote.php/dav" "/remote.php/dav" (Or.inl rfl)
    (by decide) (by decide)]
  rfl

/-- C6: in the AwaitingUrl phase, a helper-process exit resolves the
session with an `AuthServer` error carrying the captured stderr; otherwise
the concatenated stdout/stderr buffers are scanned line-by-line, the first
line containing `http://127.0.0.1:53682/auth` resolves with its last
whitespace-delimited chunk as the URL, and the loop keeps polling when no
such line exists. -/
theorem awaiting_url_discovery :
    (∀ stdoutBuf stderrBuf : String,
      await_url_step true stdoutBuf stderrBuf
        = some (Except.error (LoginCommandErr.AuthServer stderrBuf))) ∧
    (∀ stdoutBuf stderrBuf l tok,
      (rustLines (stdoutBuf ++ "\n" ++ stderrBuf)).find?
        (fun s => strContains s authUrlMarker) = some l →
      (splitWhitespace l).getLast? = some tok →
      await_url_step false stdoutBuf stderrBuf = some (Except.ok tok)) ∧
    (∀ stdoutBuf stderrBuf,
      (rustLines (stdoutBuf ++ "\n" ++ stderrBuf)).find?
        (fun s => strContains s authUrlMarker) = none →
      await_url_step false stdoutBuf stderrBuf = none) := by
  refine ⟨fun _ _ => rfl, ?_, ?_⟩
  · intro stdoutBuf stderrBuf l tok hfind htok
    simp [await_url_step, find_auth_url, hfind, htok]
  · intro stdoutBuf stderrBuf hfind
    simp [await_url_step, find_auth_url, hfind]

/-- Witness for C6 at a concrete captured stdout. -/
theorem awaiting_url_discovery_witness :
    await_url_step false
      "If your browser does not open, go to: http://127.0.0.1:53682/auth?state=xyz" ""
      = some (Except.ok "http://127.0.0.1:53682/auth?state=xyz") :=
  awaiting_url_discovery.2.1
    "If your browser does not open, go to: http://127.0.0.1:53682/auth?state=xyz" ""
    "If your browser does not open, go to: http://127.0.0.1:53682/auth?state=xyz"
    "http://127.0.0.1:53682/auth?state=xyz" (by decide) (by decide)

/-- C7: a remote name equal to the name of an already existing remote (as
reported live by `config/listremotes` through `get_remotes`) is flagged
"Name already exists" by the validation of the name field, and with the name
field in that state `LoginMsg::CheckInputs` leaves the login button
insensitive — so the `Authenticate` commit flow, whose only trigger is the
login button, is never reached and no `config/create` call is issued for a
colliding name. -/
theorem name_collision_blocks_login (remotes : List String) (name : String)
    (url_row user_row pass_row totp_row : InputState) (totp_active : Bool)
    (hmem : name ∈ list_remotes remotes) :
    (name ≠ "" →
      name_check name (list_remotes remotes) = some ("Name already exists", "")) ∧
    check_inputs
      [{ visible := true, text := name,
         hasError := (name_check name (list_remotes remotes)).isSome },
       url_row, user_row, pass_row] totp_row totp_active = false := by
  constructor
  · intro hne
    simp [name_check, hne, hmem]
  · by_cases hne : name = ""
    · simp [check_inputs, hne]
    · simp [check_inputs, name_check, hne, hmem]

/-- Witness for C7 at a concrete store and colliding name. -/
theorem name_collision_blocks_login_witness :
    check_inputs
      [{ visible := true, text := "work",
         hasError := (name_check "work" (list_remotes ["work", "home"])).isSome },
       ⟨false, "", false⟩, ⟨false, "", false⟩, ⟨false, "", false⟩]
      ⟨false, "", false⟩ false = false :=
  (name_collision_blocks_login ["work", "home"] "work"
    ⟨false, "", false⟩ ⟨false, "", false⟩ ⟨false, "", false⟩ ⟨false, "", false⟩
    false (by decide)).2

/-- C8: the crash payload written by the panic hook of the child and read back
by the supervisor round-trips exactly — deserializing the serialized
`SentryPanicInfo` reproduces the same backtrace text and failure event
fields. -/
theorem crash_payload_round_trip (p : SentryPanicInfo) :
    decode_panic_info (encode_panic_info p) = some p := by
  rfl

/-- C9: the supervisor reads the handoff file iff the exit status of the child
indicates failure; a successful child exit reads nothing and launches no
presentation; and on the failure path an absent-or-unparsable handoff file
makes the supervisor itself panic (a surfaced failure, not a silent exit),
while a valid payload is presented. -/
theorem supervisor_reads_handoff_iff_failure (childSuccess : Bool)
    (handoff : Option Json) :
    ((parent_start childSuccess handoff).1 = !childSuccess) ∧
    (childSuccess = true →
      parent_start childSuccess handoff = (false, ParentOutcome.childOk)) ∧
    (childSuccess = false → handoff = none →
      parent_start childSuccess handoff = (true, ParentOutcome.panicked)) ∧
    (childSuccess = false → ∀ j, handoff = some j → decode_panic_info j = none →
      parent_start childSuccess handoff = (true, ParentOutcome.panicked)) ∧
    (childSuccess = false → ∀ j q, handoff = some j → decode_panic_info j = some q →
      parent_start childSuccess handoff = (true, ParentOutcome.presented q)) := by
  refine ⟨?_, ?_, ?_, ?_, ?_⟩
  · cases childSuccess
    · cases handoff with
      | none => rfl
      | some j =>
        unfold parent_start
        cases hd : decode_panic_info j <;> simp [hd]
    · rfl
  · intro hs; subst hs; rfl
  · intro hs hh; subst hs; subst hh; rfl
  · intro hs j hh hd; subst hs; subst hh; simp [parent_start, hd]
  · intro hs j q hh hd; subst hs; subst hh; simp [parent_start, hd]

/-- Witness for C9: a successful child exit reads nothing and launches no
presentation. -/
theorem supervisor_reads_handoff_iff_failure_witness :
    parent_start true none = (false, ParentOutcome.childOk) :=
  (supervisor_reads_handoff_iff_failure true none).2.1 rfl

/-- C10: every RPC operation addressing a remote by name (stat, list,
mkdir, delete, purge, and the copy functions) sends as its `fs` field
exactly the remote name with a single `:` appended, provided the name does
not already end with `:`; a name ending with `:` makes the operation panic
in `get_remote_name` before any RPC call is issued (modelled as `none`). -/
theorem rpc_fs_field_colon (name path local_file dest : String) :
    (endsWithColon name = false →
      stat_call name path
        = some ⟨"operations/stat", name ++ ":", strip_slashes path⟩ ∧
      list_call name path
        = some ⟨"operations/list", name ++ ":", strip_slashes path⟩ ∧
      mkdir_call name path
        = some ⟨"operations/mkdir", name ++ ":", strip_slashes path⟩ ∧
      delete_call name path
        = some ⟨"operations/delete", name ++ ":", strip_slashes path⟩ ∧
      purge_call name path
        = some ⟨"operations/purge", name ++ ":", strip_slashes path⟩ ∧
      copy_to_remote_call local_file name dest
        = some ⟨"/", strip_slashes local_file, name ++ ":", strip_slashes dest⟩ ∧
      copy_to_local_call dest name local_file
        = some ⟨name ++ ":", strip_slashes local_file, "/", strip_slashes dest⟩) ∧
    (endsWithColon name = true →
      stat_call name path = none ∧ list_call name path = none ∧
      mkdir_call name path = none ∧ delete_call name path = none ∧
      purge_call name path = none ∧
      copy_to_remote_call local_file name dest = none ∧
      copy_to_local_call dest name local_file = none) := by
  constructor
  · intro h
    simp [stat_call, list_call, mkdir_call, delete_call, purge_call,
      common_call, copy_to_remote_call, copy_to_local_call,
      get_remote_name, h]
  · intro h
    simp [stat_call, list_call, mkdir_call, delete_call, purge_call,
      common_call, copy_to_remote_call, copy_to_local_call,
      get_remote_name, h]

/-- Witness for C10 at a concrete remote name and path. -/
theorem rpc_fs_field_colon_witness :
    stat_call "myremote" "/docs/" = some ⟨"operations/stat", "myremote:", "docs"⟩ := by
  rw [((rpc_fs_field_colon "myremote" "/docs/" "f" "d").1 (by decide)).1]
  rfl

end Celeste
